import Mathlib

/-!
Shallow embedding of the `ffauto` transcode-request compiler and pass
supervisor (source: `ffauto.py`).  Pure helper functions of the script are
translated into Lean functions; the straight-line `main` pipeline is
translated into a family of definitions over an `Args` record (the parsed
command-line namespace) and a `MediaInfo` record (the probe result).
Python floats are modelled as exact rationals; a Python expression that
raises before the first encoder pass is modelled as `Option.none`.
-/

namespace FFAuto

/-- Python banker's rounding (`round`) to an integer: round half to even.
(`Rat.floor` rather than `Int.floor` keeps the definition kernel-computable;
the two agree, see `Rat.floor_def'`.) -/
def roundHalfEven (x : ℚ) : ℤ :=
  let f := x.floor
  let r := x - f
  if r < 1/2 then f
  else if 1/2 < r then f + 1
  else if f % 2 = 0 then f else f + 1

/-- Python `round(x, 4)`: banker's rounding to 4 decimal places. -/
def pyRound4 (x : ℚ) : ℚ := (roundHalfEven (x * 10000) : ℚ) / 10000

/-- Python `int(float)`: truncation toward zero. -/
def truncQ (q : ℚ) : ℤ := if 0 ≤ q then q.floor else q.ceil

/-- Characters stripped by Python's numeric-literal parsers. -/
def isPyWs (c : Char) : Bool :=
  c = ' ' || c = '\t' || c = '\n' || c = '\r' || c = '\x0b' || c = '\x0c'

/-- Strip leading and trailing whitespace from a character list. -/
def stripWs (cs : List Char) : List Char :=
  ((cs.dropWhile isPyWs).reverse.dropWhile isPyWs).reverse

/-- Value of a list of decimal digit characters. -/
def natOfDigits (ds : List Char) : ℕ :=
  ds.foldl (fun a c => 10 * a + (c.toNat - 48)) 0

/-- Python `int(s)` on a string: optional sign followed by decimal digits
(whitespace stripped); `none` models the `ValueError` raised otherwise. -/
def pyInt (s : String) : Option ℤ :=
  let cs := stripWs s.data
  let p : Bool × List Char :=
    match cs with
    | '+' :: r => (false, r)
    | '-' :: r => (true, r)
    | r => (false, r)
  if p.2 ≠ [] ∧ p.2.all Char.isDigit then
    some (if p.1 then -(natOfDigits p.2 : ℤ) else (natOfDigits p.2 : ℤ))
  else none

/-- Continuation of a PEP 515 digit part: further digits, where a single
underscore may sit between two digits.  Returns the digits gathered (with
underscores elided) and the unconsumed remainder. -/
def digitTail : List Char → List Char × List Char
  | [] => ([], [])
  | '_' :: c :: rest =>
    if c.isDigit then
      let p := digitTail rest
      (c :: p.1, p.2)
    else ([], '_' :: c :: rest)
  | c :: rest =>
    if c.isDigit then
      let p := digitTail rest
      (c :: p.1, p.2)
    else ([], c :: rest)

/-- A PEP 515 digit part as accepted by Python's `float()` and `int()`:
`digit (["_"] digit)*` — it must start with a digit, underscores only occur
between digits.  Returns the digits (underscores elided) and the remainder. -/
def digitRun (cs : List Char) : List Char × List Char :=
  match cs with
  | c :: rest =>
    if c.isDigit then
      let p := digitTail rest
      (c :: p.1, p.2)
    else ([], cs)
  | [] => ([], [])

/-- Mantissa of a Python float literal: a digit part, optionally a point and
another digit part; at least one digit overall.  Returns the value and the
unconsumed remainder. -/
def parseMantissa (cs : List Char) : Option (ℚ × List Char) :=
  let p := digitRun cs
  match p.2 with
  | '.' :: rest2 =>
    let q := digitRun rest2
    if p.1.isEmpty && q.1.isEmpty then none
    else some ((natOfDigits p.1 : ℚ) + (natOfDigits q.1 : ℚ) / ((10 : ℚ) ^ q.1.length), q.2)
  | _ => if p.1.isEmpty then none else some ((natOfDigits p.1 : ℚ), p.2)

/-- Python `float(s)` on a finite decimal literal: optional sign, mantissa,
optional exponent part, with PEP 515 underscores between digits; `none`
models the `ValueError` raised on anything else.  Together with
`isPyNonFinite` (the `inf`/`nan` spellings, which have no rational value)
this covers the full domain of `float()`: the call raises exactly when this
parser fails and `isPyNonFinite` is false. -/
def parsePyFloat (s : String) : Option ℚ :=
  let cs := stripWs s.data
  let p : ℚ × List Char :=
    match cs with
    | '+' :: r => (1, r)
    | '-' :: r => (-1, r)
    | r => (1, r)
  match parseMantissa p.2 with
  | none => none
  | some (m, rest) =>
    match rest with
    | [] => some (p.1 * m)
    | c :: rest2 =>
      if c = 'e' ∨ c = 'E' then
        let q : ℤ × List Char :=
          match rest2 with
          | '+' :: r => (1, r)
          | '-' :: r => (-1, r)
          | r => (1, r)
        let er := digitRun q.2
        if er.1.isEmpty ∨ er.2 ≠ [] then none
        else some (p.1 * m * (10 : ℚ) ^ (q.1 * (natOfDigits er.1 : ℤ)))
      else none

/-- The four `strptime` clock formats used by the timestamp normalizer. -/
inductive ClockFmt where
  | hmsf
  | hms
  | msf
  | ms
deriving DecidableEq

/-- One numeric `strptime` field (such as `%H`): one or two digits, greedily
two when the two-digit value does not exceed the field's maximum (the ordered
regex alternation CPython compiles for these directives). -/
def matchNum2 (maxVal : ℕ) : List Char → Option (ℕ × List Char)
  | c1 :: c2 :: rest =>
    if c1.isDigit && c2.isDigit && decide (10 * (c1.toNat - 48) + (c2.toNat - 48) ≤ maxVal) then
      some (10 * (c1.toNat - 48) + (c2.toNat - 48), rest)
    else if c1.isDigit then some (c1.toNat - 48, c2 :: rest)
    else none
  | [c1] => if c1.isDigit then some (c1.toNat - 48, []) else none
  | [] => none

/-- A literal character in a `strptime` format. -/
def lit (c : Char) : List Char → Option (List Char)
  | d :: rest => if d = c then some rest else none
  | [] => none

/-- The `%f` field: one to six digits, right-padded to microseconds; returns
the fractional-second value. -/
def matchMicro (cs : List Char) : Option (ℚ × List Char) :=
  let ds := (cs.takeWhile Char.isDigit).take 6
  if ds.isEmpty then none
  else some (((natOfDigits ds * 10 ^ (6 - ds.length) : ℕ) : ℚ) / 1000000, cs.drop ds.length)

/-- Seconds since the zero epoch of a parsed wall-clock value. -/
def clockSecs (h m s : ℕ) (f : ℚ) : ℚ := ((h * 3600 + m * 60 + s : ℕ) : ℚ) + f

/-- `datetime.strptime` restricted to the four clock formats of the script,
returning the offset from the zero epoch in seconds (`none` = `ValueError`).
The whole string must be consumed, mirroring the unconverted-data check.
The `%S` regex alternation accepts the leap-second forms 60 and 61
(`matchNum2 61`), but the `datetime` constructor then rejects any second
above 59 with `ValueError`, modelled by the trailing `s ≤ 59` guard. -/
def strptimeClock (fmt : ClockFmt) (str : String) : Option ℚ :=
  match fmt with
  | .hmsf => do
    let (h, r1) ← matchNum2 23 str.data
    let r2 ← lit ':' r1
    let (m, r3) ← matchNum2 59 r2
    let r4 ← lit ':' r3
    let (s, r5) ← matchNum2 61 r4
    let r6 ← lit '.' r5
    let (f, r7) ← matchMicro r6
    if r7 = [] ∧ s ≤ 59 then some (clockSecs h m s f) else none
  | .hms => do
    let (h, r1) ← matchNum2 23 str.data
    let r2 ← lit ':' r1
    let (m, r3) ← matchNum2 59 r2
    let r4 ← lit ':' r3
    let (s, r5) ← matchNum2 61 r4
    if r5 = [] ∧ s ≤ 59 then some (clockSecs h m s 0) else none
  | .msf => do
    let (m, r1) ← matchNum2 59 str.data
    let r2 ← lit ':' r1
    let (s, r3) ← matchNum2 61 r2
    let r4 ← lit '.' r3
    let (f, r5) ← matchMicro r4
    if r5 = [] ∧ s ≤ 59 then some (clockSecs 0 m s f) else none
  | .ms => do
    let (m, r1) ← matchNum2 59 str.data
    let r2 ← lit ':' r1
    let (s, r3) ← matchNum2 61 r2
    if r3 = [] ∧ s ≤ 59 then some (clockSecs 0 m s 0) else none

/-- The format list tried by `parse_ffmpeg_timestamp`, in source order. -/
def timestamp_formats : List ClockFmt := [.hmsf, .hms, .msf, .ms]

/-- `parse_ffmpeg_timestamp` from `ffauto.py` (debug printing dropped):
a bare decimal number is returned verbatim; otherwise the clock formats are
tried in order, each success overwriting the running result (rounded to four
decimals); the initial running result is the sentinel -1. -/
def parse_ffmpeg_timestamp (timestamp : String) : ℚ :=
  match parsePyFloat timestamp with
  | some v => v
  | none =>
    timestamp_formats.foldl
      (fun ret fmt =>
        match strptimeClock fmt timestamp with
        | some secs => pyRound4 secs
        | none => ret)
      (-1)

/-- `closest` from `ffauto.py`: `min(filter(lambda x: x >= num, arr))`;
`none` models the `ValueError` that `min` raises on an empty iterator. -/
def closest (num : ℚ) (arr : List ℚ) : Option ℚ :=
  match arr.filter (fun x => num ≤ x) with
  | [] => none
  | x :: xs => some (xs.foldl min x)

/-- `ceil_even` from `ffauto.py`: `math.ceil(num / 2.0) * 2`.
(`Rat.ceil` rather than `Int.ceil` keeps the definition kernel-computable;
the two agree, see `ratCeil_eq_ceil` below.) -/
def ceil_even (num : ℚ) : ℤ := (num / 2).ceil * 2

/-- Python's `s.lower().endswith("x")` test: the last character is `x` after
lowercasing, i.e. it is `x` or `X`. -/
def endsWithLowerX (s : String) : Bool :=
  match s.data.getLast? with
  | some c => c = 'x' || c = 'X'
  | none => false

/-- Python `s.split(sep)` on a single-character separator. -/
def splitOnChar (sep : Char) : List Char → List (List Char)
  | [] => [[]]
  | c :: rest =>
    match splitOnChar sep rest with
    | [] => if c = sep then [[], []] else [[c]]
    | h :: t => if c = sep then [] :: h :: t else (c :: h) :: t

/-- `pySplit`: string-level wrapper of `splitOnChar`. -/
def pySplit (sep : Char) (s : String) : List String :=
  (splitOnChar sep s.data).map String.mk

/-- A Python value that is either `None` or a `str` (the type of the
`filter_audio` variable, which `main` compares against `None`). -/
inductive PyVal where
  | vnone
  | vstr (s : String)
deriving DecidableEq

/-- Python truthiness of an optional-string argument (`None` and the empty
string are falsy). -/
def truthy : Option String → Bool
  | none => false
  | some s => !s.isEmpty

/-- Python truthiness of a `None`-or-`str` value. -/
def pyTruthy : PyVal → Bool
  | .vnone => false
  | .vstr s => !s.isEmpty

/-- The string carried by a `str`-valued `PyVal`. -/
def pyStrVal : PyVal → String
  | .vnone => ""
  | .vstr s => s

/-- Exact decimal rendering of a rational into an ffmpeg argument.  This
abstracts the `repr` of the Python floats interpolated into filter strings;
the rendered text is never load-bearing for the verified properties, only
the fact that it carries no comma and follows a fixed fragment head. -/
def pyNum (q : ℚ) : String :=
  if q.den = 1 then toString q.num
  else toString q.num ++ "/" ++ toString q.den

/-- The argparse namespace of `ffauto.py`, with the parser's defaults. -/
structure Args where
  i : String
  ss : String := "0"
  t : Option String := none
  -- the source's field is named "to"; that word is reserved in Lean
  toTime : Option String := none
  mute : Bool := false
  audio_force : Bool := false
  volume : Option String := none
  normalize : Bool := false
  width : Option String := none
  height : Option String := none
  title : Option String := none
  fade : Option String := none
  fadein : Option String := none
  fadeout : Option String := none
  crop : Option String := none
  framerate : Option String := none
  loop : Option String := none
  slowmo_fps : Option String := none
  slowmo_mode : String := "sensible"
  ffmpeg : Option String := none
  fast_seek : Bool := false
  brightness : ℚ := 0
  contrast : ℚ := 1
  saturation : ℚ := 1
  sharpen : Bool := false
  gif_colors : String := "256"
  gif_dither : String := "floyd_steinberg"
  gif_stats : String := "diff"
  gif_transparency : Bool := false
  garbage : Bool := false
  fixrgb : String := "0"
  youtube : Bool := false
  nvidia : Bool := false
  x264 : Bool := false
  x265 : Bool := false
  gif : Bool := false
  apng : Bool := false
  webp : Bool := false
  out : String

/-- The probe result fields `main` consumes (`get_video_info`). -/
structure MediaInfo where
  width : ℤ
  height : ℤ
  duration : ℚ
  r_frame_rate : ℚ

/-- `FAST_SEEK`: forced on for GIF creation or by the explicit override. -/
def FAST_SEEK (a : Args) : Bool := a.gif || a.fast_seek

/-- Effective fade-in duration string after the `-f` override
(`if args.fade: args.fadein = args.fade`). -/
def effFadein (a : Args) : Option String :=
  if truthy a.fade then a.fade else a.fadein

/-- Effective fade-out duration string after the `-f` override. -/
def effFadeout (a : Args) : Option String :=
  if truthy a.fade then a.fade else a.fadeout

/-- `start_secs = parse_ffmpeg_timestamp(args.ss, ...)`. -/
def start_secs (a : Args) : ℚ := parse_ffmpeg_timestamp a.ss

/-- `duration_secs`: from `-to`, from `-t`, or probed duration minus start. -/
def duration_secs (a : Args) (v : MediaInfo) : ℚ :=
  if truthy a.toTime then parse_ffmpeg_timestamp (a.toTime.getD "") - start_secs a
  else if truthy a.t then parse_ffmpeg_timestamp (a.t.getD "")
  else v.duration - start_secs a

/-- `float(args.fadeout or 0)`: 0 when the fade-out string is falsy, else its
float value (`none` models the `ValueError` on an unparseable string). -/
def fadeoutLen (a : Args) : Option ℚ :=
  if truthy (effFadeout a) then parsePyFloat ((effFadeout a).getD "") else some 0

/-- `fadein_start`: 0 under fast seek, else the rounded start offset. -/
def fadein_start (a : Args) : ℚ :=
  if FAST_SEEK a then 0 else pyRound4 (start_secs a)

/-- `fadeout_start`: duration minus fade-out length under fast seek, start
plus duration minus fade-out length under accurate seek (rounded). -/
def fadeout_start (a : Args) (v : MediaInfo) : Option ℚ :=
  (fadeoutLen a).map fun L =>
    if FAST_SEEK a then pyRound4 (duration_secs a v - L)
    else pyRound4 (start_secs a + duration_secs a v - L)

/-- `video_size`: the source dimension the relative multiplier applies to. -/
def videoSize (a : Args) (v : MediaInfo) : ℚ :=
  if truthy a.width then (v.width : ℚ) else (v.height : ℚ)

/-- `new_size = args.width or args.height`. -/
def newSizeStr (a : Args) : String :=
  if truthy a.width then a.width.getD "" else a.height.getD ""

/-- `new_size_parsed` before even-rounding: an absolute integer, or the
truncated product of the source dimension and an `x`-suffixed multiplier. -/
def new_size_parsed (a : Args) (v : MediaInfo) : Option ℤ :=
  let ns := newSizeStr a
  if endsWithLowerX ns then
    (parsePyFloat (String.mk ns.data.dropLast)).map fun m => truncQ (videoSize a v * m)
  else pyInt ns

/-- `size_str`: the even-rounded dimension paired with `-2` on the free axis. -/
def size_str (a : Args) (v : MediaInfo) : Option String :=
  (new_size_parsed a v).map fun n =>
    if truthy a.width then toString (ceil_even (n : ℚ)) ++ ":-2"
    else "-2:" ++ toString (ceil_even (n : ℚ))

/-- The scale fragment (device-side when the GPU target is active). -/
def filter_scale (a : Args) (v : MediaInfo) : Option (List String) :=
  if truthy a.width || truthy a.height then
    (size_str a v).map fun s =>
      if a.nvidia then ["scale_cuda=" ++ s]
      else ["scale=" ++ (s ++ ":flags=spline+accurate_rnd+full_chroma_int+full_chroma_inp")]
  else some []

/-- `int(args.fixrgb)` (argparse restricts the flag to "0"/"1"/"2"). -/
def fixrgbVal (a : Args) : Option ℤ := pyInt a.fixrgb

/-- The `-colorspace ...` option block emitted when fixrgb is positive. -/
def opt_fixrgb (a : Args) : Option (List String) :=
  (fixrgbVal a).map fun n =>
    if 0 < n then
      ["-colorspace", "bt709", "-color_range", "jpeg",
       "-color_primaries", "bt709", "-color_trc", "bt709"]
    else []

/-- The full-range rescale fragment emitted when fixrgb is 2. -/
def filter_fixrgb (a : Args) : Option (List String) :=
  (fixrgbVal a).map fun n =>
    if n = 2 then ["scale=in_range=tv:out_range=pc"] else []

/-- The frame-rate retiming fragment. -/
def filter_fps (a : Args) : List String :=
  if truthy a.framerate then ["fps=fps=" ++ a.framerate.getD ""] else []

/-- The crop fragment; `none` models the `RuntimeError` raised when the crop
string does not split into exactly four components. -/
def filter_crop (a : Args) : Option (List String) :=
  if truthy a.crop then
    match pySplit ':' (a.crop.getD "") with
    | [w, h, x, y] => some ["crop=" ++ (w ++ ":" ++ h ++ ":" ++ x ++ ":" ++ y)]
    | _ => none
  else some []

/-- `loop_amount = abs(int(args.loop)) - 1` (0 when no loop is requested). -/
def loop_amount (a : Args) : Option ℤ :=
  if truthy a.loop then (pyInt (a.loop.getD "")).map fun n => (n.natAbs : ℤ) - 1
  else some 0

/-- The frame-loop fragment (always present in the first-pass chain). -/
def filter_loop (a : Args) : Option (List String) :=
  (loop_amount a).map fun n => ["loop=loop=" ++ (toString n ++ ":size=32767:start=0")]

/-- Motion-estimation methods of the three slow-motion presets. -/
def ME_MODES : String → Option String
  | "fast" => some "hexbs"
  | "sensible" => some "umh"
  | "slow" => some "esa"
  | _ => none

/-- Search ranges of the three slow-motion presets. -/
def ME_RANGES : String → Option String
  | "fast" => some "8"
  | "sensible" => some "16"
  | "slow" => some "24"
  | _ => none

/-- The motion-interpolation fragment. -/
def filter_minterpolate (a : Args) : Option (List String) :=
  if truthy a.slowmo_fps then
    (ME_MODES a.slowmo_mode).bind fun m =>
    (ME_RANGES a.slowmo_mode).bind fun r =>
    some ["minterpolate=fps=" ++ (a.slowmo_fps.getD "" ++
          ":mi_mode=mci:mc_mode=aobmc:me_mode=bilat:me=" ++ m ++
          ":search_param=" ++ r ++ ":vsbmc=1")]
  else some []

/-- The brightness/saturation/contrast fragment (always present). -/
def filter_eq (a : Args) : List String :=
  ["eq=brightness=" ++ (pyNum a.brightness ++ ":saturation=" ++ pyNum a.saturation ++
   ":contrast=" ++ pyNum a.contrast)]

/-- The sharpening fragment. -/
def filter_sharpen (a : Args) : List String :=
  if a.sharpen then ["unsharp"] else []

/-- The video fade-in fragment before the GPU-transfer override. -/
def filter_vfadein_base (a : Args) : List String :=
  if truthy (effFadein a) then
    ["fade=t=in:st=" ++ (pyNum (fadein_start a) ++ ":d=" ++ (effFadein a).getD "")]
  else []

/-- The video fade-out fragment before the GPU-transfer override. -/
def filter_vfadeout_base (a : Args) (v : MediaInfo) : Option (List String) :=
  (fadeout_start a v).map fun fs =>
    if truthy (effFadeout a) then
      ["fade=t=out:st=" ++ (pyNum fs ++ ":d=" ++ (effFadeout a).getD "")]
    else []

/-- The combined video fade fragment: under the GPU target, both fades share
a single download/upload transfer pair, while a lone fade is wrapped in its
own pair; comma-joins are represented as fragment-list concatenation. -/
def filter_vfade (a : Args) (v : MediaInfo) : Option (List String) :=
  (filter_vfadeout_base a v).map fun fo =>
    let fi := filter_vfadein_base a
    if a.nvidia then
      if truthy (effFadein a) && truthy (effFadeout a) then
        (["hwdownload", "format=nv12"] ++ fi) ++ (fo ++ ["hwupload"])
      else
        (if truthy (effFadein a) then ["hwdownload", "format=nv12"] ++ fi ++ ["hwupload"] else []) ++
        (if truthy (effFadeout a) then ["hwdownload", "format=nv12"] ++ fo ++ ["hwupload"] else [])
    else fi ++ fo

/-- The volume-adjustment audio fragment. -/
def filter_avolume (a : Args) : List String :=
  if truthy a.volume then ["volume=" ++ a.volume.getD ""] else []

/-- The loudness-normalization audio fragment. -/
def filter_normalize (a : Args) : List String :=
  if a.normalize then ["dynaudnorm=correctdc=1:altboundary=1"] else []

/-- The audio fade-in fragment. -/
def filter_afadein (a : Args) : List String :=
  if truthy (effFadein a) then
    ["afade=t=in:st=" ++ (pyNum (fadein_start a) ++ ":d=" ++ (effFadein a).getD "" ++ ":curve=losi")]
  else []

/-- The audio fade-out fragment. -/
def filter_afadeout (a : Args) (v : MediaInfo) : Option (List String) :=
  (fadeout_start a v).map fun fs =>
    if truthy (effFadeout a) then
      ["afade=t=out:st=" ++ (pyNum fs ++ ":d=" ++ (effFadeout a).getD "" ++ ":curve=losi")]
    else []

/-- The audio filter fragments in chain order. -/
def audio_atoms (a : Args) (v : MediaInfo) : Option (List String) :=
  (filter_afadeout a v).map fun afo =>
    filter_avolume a ++ filter_normalize a ++ filter_afadein a ++ afo

/-- The `filter_audio` variable of `main`: the comma-join of the audio
fragments — always a `str`, never `None`. -/
def filter_audio (a : Args) (v : MediaInfo) : Option PyVal :=
  (audio_atoms a v).map fun l => PyVal.vstr (String.intercalate "," l)

/-- `convert_audio = args.audio_force or (filter_audio != None)`. -/
def convert_audio (a : Args) (v : MediaInfo) : Option Bool :=
  (filter_audio a v).map fun fa => a.audio_force || decide (fa ≠ PyVal.vnone)

/-- The audio bitrate, lowered in garbage mode. -/
def opt_acodec_bitrate (a : Args) : String := if a.garbage then "128k" else "256k"

/-- `opt_acodec`: AAC re-encode when `convert_audio`, else stream copy. -/
def opt_acodec (a : Args) (v : MediaInfo) : Option (List String) :=
  (convert_audio a v).map fun ca =>
    if ca then ["-c:a", "aac", "-b:a", opt_acodec_bitrate a] else ["-c:a", "copy"]

/-- `opt_audio`: `-an` for mute or GIF, else the codec options. -/
def opt_audio (a : Args) (v : MediaInfo) : Option (List String) :=
  (opt_acodec a v).map fun ac => if a.mute || a.gif then ["-an"] else ac

/-- `opt_afilter`: the `-af` option when the audio chain is nonempty and
audio is not muted. -/
def opt_afilter (a : Args) (v : MediaInfo) : Option (List String) :=
  (filter_audio a v).map fun fa =>
    if pyTruthy fa && !a.mute then ["-af", pyStrVal fa] else []

/-- Rendering of `f"{duration_secs:.4f}"` (4-decimal fixed-point). -/
def format4f (q : ℚ) : String := pyNum (pyRound4 q)

/-- `opt_duration`: `-t` only when a duration or end position was given. -/
def opt_duration (a : Args) (v : MediaInfo) : List String :=
  if truthy a.t || truthy a.toTime then ["-t", format4f (duration_secs a v)] else []

/-- The GIF palette-generation fragment (pass 1 only). -/
def filter_palettegen (a : Args) : List String :=
  if a.gif then
    ["palettegen=stats_mode=" ++ (a.gif_stats ++ ":reserve_transparent=" ++
     (if a.gif_transparency then "1" else "0") ++ ":max_colors=" ++ a.gif_colors)]
  else []

/-- The GIF palette-application fragment (pass 2 only). -/
def filter_paletteuse (a : Args) : List String :=
  ["paletteuse=diff_mode=rectangle:bayer_scale=1:dither=" ++ a.gif_dither]

/-- The video fragments shared by both passes (precedence 1-7: fps, color
range, crop, scale, interpolation, eq, sharpen). -/
def vcommon (a : Args) (v : MediaInfo) : Option (List String) :=
  (filter_fixrgb a).bind fun fx =>
  (filter_crop a).bind fun cr =>
  (filter_scale a v).bind fun sc =>
  (filter_minterpolate a).bind fun mi =>
  some (filter_fps a ++ fx ++ cr ++ sc ++ mi ++ filter_eq a ++ filter_sharpen a)

/-- The pass-1 video chain: shared fragments, loop, fades, palette
generation (line 401 of the source). -/
def vchain1 (a : Args) (v : MediaInfo) : Option (List String) :=
  (vcommon a v).bind fun pre =>
  (filter_loop a).bind fun lp =>
  (filter_vfade a v).bind fun vf =>
  some (pre ++ lp ++ vf ++ filter_palettegen a)

/-- The pass-2 video chain: shared fragments, fades, palette application —
no loop fragment (line 477 of the source). -/
def vchain2 (a : Args) (v : MediaInfo) : Option (List String) :=
  (vcommon a v).bind fun pre =>
  (filter_vfade a v).bind fun vf =>
  some (pre ++ vf ++ filter_paletteuse a)

/-- The global options `-loglevel warning -hide_banner`. -/
def opt_global : List String := ["-loglevel", "warning", "-hide_banner"]

/-- `opt_metadata`: the title tag. -/
def opt_metadata (a : Args) : List String :=
  if truthy a.title then ["-metadata", "title=\"" ++ a.title.getD "" ++ "\""] else []

/-- `opt_passthrough`: raw arguments split on spaces. -/
def opt_passthrough (a : Args) : List String :=
  if truthy a.ffmpeg then pySplit ' ' (a.ffmpeg.getD "") else []

/-- Codec-family selection (`args.codec`). -/
def codec (a : Args) : String :=
  if a.youtube || a.x264 then "libx264"
  else if a.x265 then "libx265"
  else if a.nvidia then "h264_cuvid"
  else if a.gif then "gif"
  else if a.apng then "apng"
  else if a.webp then "libwebp"
  else "libx264"

/-- x264 CRF, scaled by 1.6 and truncated in garbage mode. -/
def crf_x264 (a : Args) : ℤ := if a.garbage then truncQ ((17 : ℚ) * 1.6) else 17

/-- x265 CRF, scaled by 1.6 and truncated in garbage mode. -/
def crf_x265 (a : Args) : ℤ := if a.garbage then truncQ ((22 : ℚ) * 1.6) else 22

/-- The two-level bitrate table `YT_BITRATES`, in insertion order. -/
def YT_BITRATES : List (ℚ × List (ℚ × String)) :=
  [(30, [(2880, "64M"), (2160, "45M"), (1440, "16M"), (1080, "8M"),
         (720, "5M"), (480, "3M"), (360, "1M")]),
   (60, [(2880, "80M"), (2160, "64M"), (1440, "24M"), (1080, "12M"),
         (720, "8M"), (480, "4M"), (360, "2M")])]

/-- Dictionary lookup by key. -/
def dictGet {β : Type} (k : ℚ) (d : List (ℚ × β)) : Option β :=
  (d.find? fun p => decide (p.1 = k)).map Prod.snd

/-- The bitrate tier selection of lines 405-407: ceiling-select the
frame-rate row, then ceiling-select the height cell within it. -/
def ytBitrate (fr h : ℚ) : Option String :=
  (closest fr (YT_BITRATES.map Prod.fst)).bind fun k1 =>
  (dictGet k1 YT_BITRATES).bind fun row =>
  (closest h (row.map Prod.fst)).bind fun k2 =>
  dictGet k2 row

/-- `f"{round(int(yt_bitrate[:-1])*1.5)}M"`. -/
def bufsize (b : String) : Option String :=
  (pyInt (b.dropRight 1)).map fun n => toString (roundHalfEven ((n : ℚ) * 1.5)) ++ "M"

/-- The platform option block (YouTube mode only). -/
def opt_youtube (a : Args) (v : MediaInfo) : Option (List String) :=
  if a.youtube then
    (ytBitrate v.r_frame_rate (v.height : ℚ)).bind fun b =>
    (bufsize b).bind fun bs =>
    some ["-movflags", "+faststart", "-maxrate", b, "-bufsize", bs,
          "-g", pyNum (v.r_frame_rate / 2), "-bf", "2", "-pix_fmt", "yuv420p"]
  else some []

/-- `opt_hardware`: the cuvid hardware-acceleration input options. -/
def opt_hardware (a : Args) : List String :=
  if a.nvidia then ["-hwaccel", "cuvid"] else []

/-- The codec-specific option block, keyed by the chosen codec. -/
def codec_options (a : Args) (fx yt : List String) : List String :=
  match codec a with
  | "libx264" =>
    ["-crf", toString (crf_x264 a), "-preset", "slow", "-pix_fmt", "yuv420p",
     "-tune", "film", "-profile:v", "high", "-level", "5.2"] ++ fx ++ yt
  | "libx265" => ["-crf", toString (crf_x265 a), "-preset", "slow"]
  | "h264_cuvid" =>
    ["-preset", "slow", "-profile:v", "high", "-level", "5.2", "-rc", "constqp",
     "-qp", "21", "-strict_gop", "true", "-rc-lookahead", "48", "-spatial-aq",
     "true", "-temporal-aq", "true", "-aq-strength", "8"]
  | "gif" => ["-f", "gif", "-loop", "0"]
  | "apng" => ["-f", "apng", "-plays", "0"]
  | _ => ["-f", "webp", "-loop", "0"]

/-- `opts_seek`: the seek option, emitted when the start string is not "0". -/
def opts_seek (a : Args) : List String :=
  if a.ss ≠ "0" then ["-ss", pyNum (pyRound4 (start_secs a))] else []

/-- Pass-1 input options: seek placed per the seek policy, then duration. -/
def opt_input1 (a : Args) (v : MediaInfo) : List String :=
  (if FAST_SEEK a then opts_seek a ++ ["-i", a.i]
   else ["-i", a.i] ++ opts_seek a) ++ opt_duration a v

/-- Pass-2 input options: the source and the palette file as two named
inputs, seek placed per the seek policy, then duration. -/
def opt_input2 (a : Args) (v : MediaInfo) (palette_file : String) : List String :=
  if FAST_SEEK a then
    opts_seek a ++ ["-i", a.i, "-i", palette_file] ++ opt_duration a v
  else
    ["-i", a.i, "-i", palette_file] ++ opts_seek a ++ opt_duration a v

/-- The assembled command plan: the pass-1 argument vector, the pass-2
vector for GIF exports, and the two joined video chains. -/
structure Plan where
  pass1 : List String
  pass2 : Option (List String)
  chain1 : List String
  chain2 : Option (List String)
deriving DecidableEq

/-- The command-plan assembly of `main` (lines 440-485): `none` models a
Python exception raised before the first encoder pass starts. -/
def buildPlan (a : Args) (v : MediaInfo) (palette_file : String) : Option Plan :=
  (opt_audio a v).bind fun au =>
  (opt_afilter a v).bind fun af =>
  (opt_fixrgb a).bind fun fx =>
  (opt_youtube a v).bind fun yt =>
  (vchain1 a v).bind fun c1 =>
  if a.gif then
    (vchain2 a v).bind fun c2 =>
    some ⟨["ffmpeg"] ++ opt_global ++ opt_input1 a v ++ ["-c:v", codec a] ++
            codec_options a fx yt ++ au ++ af ++
            (if c1.isEmpty then [] else ["-vf", String.intercalate "," c1]) ++
            opt_metadata a ++ opt_passthrough a ++ ["-y", palette_file],
          some (["ffmpeg"] ++ opt_global ++ opt_input2 a v palette_file ++ ["-c:v", codec a] ++
            codec_options a fx yt ++ au ++ af ++
            (if c2.isEmpty then [] else ["-lavfi", String.intercalate "," c2]) ++
            opt_metadata a ++ opt_passthrough a ++ ["-y", a.out]),
          c1, some c2⟩
  else
    some ⟨["ffmpeg"] ++ opt_global ++ opt_hardware a ++ opt_input1 a v ++ ["-c:v", codec a] ++
            codec_options a fx yt ++ au ++ af ++
            (if c1.isEmpty then [] else ["-vf", String.intercalate "," c1]) ++
            opt_metadata a ++ opt_passthrough a ++ ["-y", a.out],
          none, c1, none⟩

/-- `start_ffmpeg` reduced to its exit-status contract: code 0 yields
`(True, 0)`, a nonzero code yields `(False, code)`. -/
def start_ffmpeg (code : ℤ) : Bool × ℤ :=
  if code = 0 then (true, 0) else (false, code)

/-- Observable outcome of the pass-supervision tail of `main`
(lines 460-493): whether pass 2 was started, whether the palette file was
removed, and the `sys.exit` code if one was raised. -/
structure RunTrace where
  pass2Started : Bool
  paletteRemoved : Bool
  exitCode : Option ℤ
deriving DecidableEq

/-- The pass supervision of `main`: run pass 1; on failure exit with its
code; for a GIF export run pass 2, on failure exit with its code, and only
after a successful pass 2 remove the palette file. -/
def runPasses (gif : Bool) (e1 e2 : ℤ) : RunTrace :=
  let r1 := start_ffmpeg e1
  if !r1.1 then ⟨false, false, some r1.2⟩
  else if gif then
    let r2 := start_ffmpeg e2
    if !r2.1 then ⟨true, false, some r2.2⟩
    else ⟨true, true, none⟩
  else ⟨false, false, none⟩

/-! ## Helper lemmas -/

theorem data_append (a b : String) : (a ++ b).data = a.data ++ b.data := by
  cases a; cases b; rfl

/-- Two strings with different head characters are different; used to show
that a fragment with a fixed head is never a transfer token. -/
theorem append_ne_of_head (p q t : String)
    (hp : p.data.head? ≠ t.data.head?) (hne : p.data ≠ []) : p ++ q ≠ t := by
  intro e
  apply hp
  rw [← e, data_append]
  cases h : p.data with
  | nil => exact absurd h hne
  | cons c l => simp [h]

theorem count_singleton_ne {s t : String} (h : s ≠ t) : List.count t [s] = 0 := by
  simp [List.count_cons, h]

/-- The computable `Rat.ceil` agrees with the order-theoretic `Int.ceil`. -/
theorem ratCeil_eq_ceil (q : ℚ) : q.ceil = ⌈q⌉ := by
  unfold Rat.ceil
  split
  · next h =>
    have hq : ((q.num : ℚ)) = q := by
      conv_rhs => rw [← Rat.num_div_den q]
      rw [h]
      simp
    conv_rhs => rw [← hq]
    rw [Int.ceil_intCast]
  · next h =>
    have hfl : q.num / (q.den : ℤ) = ⌊q⌋ := Rat.floor_def.symm
    rw [hfl]
    symm
    rw [Int.ceil_eq_iff]
    constructor
    · push_cast
      rcases lt_or_eq_of_le (Int.floor_le q) with hlt | heq
      · simpa using hlt
      · exfalso
        apply h
        rw [← heq]
        exact Rat.den_intCast ⌊q⌋
    · push_cast
      linarith [Int.lt_floor_add_one q]

/-! ## Claim theorems

The rational arithmetic of the embedding is evaluated inside closed
witnesses, so the arithmetic on `Rat` is made locally semireducible for
this section. -/

section

attribute [local semireducible] Rat.add Rat.mul Rat.sub Rat.inv Rat.ofScientific

/-- C1 counterexample: with pass 1 succeeding (exit 0) and pass 2 failing
(exit 1), pass 2 reaches its terminal state yet the palette file is NOT
removed — `main` exits with the encoder's code before the cleanup line. -/
theorem palette_not_removed_on_pass2_failure :
    (runPasses true 0 1).pass2Started = true ∧
    (runPasses true 0 1).exitCode = some 1 ∧
    (runPasses true 0 1).paletteRemoved = false := by
  decide

/-- C1 (amended): for a GIF export, the intermediate palette file is removed
only when pass 2 succeeds; a pass-2 failure terminates the invocation with
the encoder's exit code without removing the palette file. -/
theorem palette_removed_iff_both_passes_succeed (e1 e2 : ℤ) :
    ((runPasses true e1 e2).paletteRemoved = true ↔ e1 = 0 ∧ e2 = 0) ∧
    (e1 = 0 → e2 ≠ 0 →
      (runPasses true e1 e2).paletteRemoved = false ∧
      (runPasses true e1 e2).exitCode = some e2) := by
  by_cases h1 : e1 = 0 <;> by_cases h2 : e2 = 0 <;>
    simp [runPasses, start_ffmpeg, h1, h2]

/-- Witness for C1 (amended) at concrete exit codes 0 and 5. -/
theorem palette_removed_iff_both_passes_succeed_witness :
    (runPasses true 0 5).paletteRemoved = false ∧
    (runPasses true 0 5).exitCode = some 5 :=
  (palette_removed_iff_both_passes_succeed 0 5).2 rfl (by decide)

/-- C8: in a two-pass (GIF) plan, pass 2 is started only when pass 1 exited
with code 0; on any pass's nonzero exit the remaining passes are aborted and
the invocation terminates with exactly that encoder exit code. -/
theorem pass2_gated_on_pass1_success (e1 e2 : ℤ) :
    (e1 ≠ 0 → (runPasses true e1 e2).pass2Started = false ∧
              (runPasses true e1 e2).exitCode = some e1) ∧
    (e1 = 0 → e2 ≠ 0 → (runPasses true e1 e2).pass2Started = true ∧
              (runPasses true e1 e2).exitCode = some e2) ∧
    (e1 = 0 → e2 = 0 → (runPasses true e1 e2).exitCode = none) := by
  by_cases h1 : e1 = 0 <;> by_cases h2 : e2 = 0 <;>
    simp [runPasses, start_ffmpeg, h1, h2]

/-- Witness for C8 at concrete exit codes 3 and 7. -/
theorem pass2_gated_on_pass1_success_witness :
    (runPasses true 3 7).pass2Started = false ∧
    (runPasses true 3 7).exitCode = some 3 :=
  (pass2_gated_on_pass1_success 3 7).1 (by decide)

theorem foldl_min_mem (x : ℚ) (xs : List ℚ) :
    xs.foldl min x = x ∨ xs.foldl min x ∈ xs := by
  induction xs generalizing x with
  | nil => left; rfl
  | cons y ys ih =>
    simp only [List.foldl, List.mem_cons]
    rcases ih (min x y) with h | h
    · rcases min_choice x y with he | he
      · left; rw [h, he]
      · right; left; rw [h, he]
    · right; right; exact h

theorem foldl_min_le (x : ℚ) (xs : List ℚ) :
    xs.foldl min x ≤ x ∧ ∀ y ∈ xs, xs.foldl min x ≤ y := by
  induction xs generalizing x with
  | nil => exact ⟨le_refl x, by simp⟩
  | cons y ys ih =>
    obtain ⟨h1, h2⟩ := ih (min x y)
    refine ⟨le_trans h1 (min_le_left x y), ?_⟩
    intro z hz
    rcases List.mem_cons.mp hz with he | hz
    · rw [he]; exact le_trans h1 (min_le_right x y)
    · exact h2 z hz

/-- The ceiling-selection property of `closest`: a returned key is a table
key, is at least the probed value, and is the least such key. -/
theorem closest_spec (num : ℚ) (arr : List ℚ) (k : ℚ)
    (h : closest num arr = some k) :
    k ∈ arr ∧ num ≤ k ∧ ∀ x ∈ arr, num ≤ x → k ≤ x := by
  unfold closest at h
  cases hf : arr.filter (fun x => num ≤ x) with
  | nil => rw [hf] at h; exact absurd h (by simp)
  | cons y ys =>
    rw [hf] at h
    injection h with h
    have hmem : k ∈ y :: ys := by
      rcases foldl_min_mem y ys with he | he
      · rw [← h, he]; exact List.mem_cons_self y ys
      · rw [← h]; exact List.mem_cons_of_mem y he
    have hmemf : k ∈ arr.filter (fun x => num ≤ x) := by rw [hf]; exact hmem
    have hk := List.mem_filter.mp hmemf
    refine ⟨hk.1, by simpa using hk.2, ?_⟩
    intro x hx hnx
    have hxf : x ∈ arr.filter (fun x => num ≤ x) :=
      List.mem_filter.mpr ⟨hx, by simpa using hnx⟩
    rw [hf] at hxf
    obtain ⟨h1, h2⟩ := foldl_min_le y ys
    rcases List.mem_cons.mp hxf with he | hxf
    · rw [← h, he]; exact h1
    · rw [← h]; exact h2 x hxf

/-- `closest` fails (models `min` on an empty iterator raising) when every
key is below the probed value. -/
theorem closest_none (num : ℚ) (arr : List ℚ)
    (h : ∀ x ∈ arr, x < num) : closest num arr = none := by
  unfold closest
  have : arr.filter (fun x => num ≤ x) = [] := by
    rw [List.filter_eq_nil_iff]
    intro x hx
    simpa using not_le.mpr (h x hx)
  rw [this]

/-- C5: the bitrate tier selector returns the cell at the smallest key that
is at least the actual value; when the frame rate exceeds every key (or the
height exceeds every key of the selected row) selection fails rather than
clamping; height 1080 at frame rate 30 yields "8M". -/
theorem bitrate_tier_selection :
    (∀ (num : ℚ) (arr : List ℚ) (k : ℚ), closest num arr = some k →
      k ∈ arr ∧ num ≤ k ∧ ∀ x ∈ arr, num ≤ x → k ≤ x) ∧
    (∀ (num : ℚ) (arr : List ℚ), (∀ x ∈ arr, x < num) → closest num arr = none) ∧
    ytBitrate 30 1080 = some "8M" ∧
    (∀ fr h : ℚ, 60 < fr → ytBitrate fr h = none) ∧
    (∀ fr h : ℚ, fr ≤ 60 → 2880 < h → ytBitrate fr h = none) := by
  refine ⟨closest_spec, closest_none, by decide, ?_, ?_⟩
  · intro fr h hfr
    have h1 : closest fr (YT_BITRATES.map Prod.fst) = none := by
      apply closest_none
      intro x hx
      simp only [YT_BITRATES, List.map, List.mem_cons] at hx
      rcases hx with rfl | hx
      · linarith
      · rcases hx with rfl | hx
        · exact hfr
        · simp at hx
    simp [ytBitrate, h1]
  · intro fr h hfr hh
    have hrow : ∀ row : List (ℚ × String), row.map Prod.fst = [2880, 2160, 1440, 1080, 720, 480, 360] →
        closest h (row.map Prod.fst) = none := by
      intro row hr
      rw [hr]
      apply closest_none
      intro x hx
      simp only [List.mem_cons] at hx
      rcases hx with rfl | rfl | rfl | rfl | rfl | rfl | rfl | hx
      · exact hh
      · linarith
      · linarith
      · linarith
      · linarith
      · linarith
      · linarith
      · simp at hx
    by_cases h30 : fr ≤ 30
    · have h1 : closest fr (YT_BITRATES.map Prod.fst) = some 30 := by
        unfold closest
        have : (YT_BITRATES.map Prod.fst).filter (fun x => fr ≤ x) = [30, 60] := by
          simp [YT_BITRATES, List.filter, h30, le_trans h30 (by norm_num : (30:ℚ) ≤ 60)]
        rw [this]
        norm_num
      simp only [ytBitrate, h1, Option.bind_eq_bind, Option.some_bind]
      have h2 : dictGet 30 YT_BITRATES =
          some [(2880, "64M"), (2160, "45M"), (1440, "16M"), (1080, "8M"),
                (720, "5M"), (480, "3M"), (360, "1M")] := by decide
      rw [h2]
      simp only [Option.some_bind]
      rw [hrow _ (by decide)]
      rfl
    · have h1 : closest fr (YT_BITRATES.map Prod.fst) = some 60 := by
        unfold closest
        have : (YT_BITRATES.map Prod.fst).filter (fun x => fr ≤ x) = [60] := by
          simp [YT_BITRATES, List.filter, h30, hfr]
        rw [this]
        rfl
      simp only [ytBitrate, h1, Option.bind_eq_bind, Option.some_bind]
      have h2 : dictGet 60 YT_BITRATES =
          some [(2880, "80M"), (2160, "64M"), (1440, "24M"), (1080, "12M"),
                (720, "8M"), (480, "4M"), (360, "2M")] := by decide
      rw [h2]
      simp only [Option.some_bind]
      rw [hrow _ (by decide)]
      rfl

/-- Witness for C5: the ceiling-selection property applied to the concrete
frame-rate row at frame rate 30. -/
theorem bitrate_tier_selection_witness :
    (30 : ℚ) ∈ [(30 : ℚ), 60] ∧ (30 : ℚ) ≤ 30 ∧
      ∀ x ∈ [(30 : ℚ), 60], 30 ≤ x → (30 : ℚ) ≤ x :=
  bitrate_tier_selection.1 30 [30, 60] 30 (by decide)

/-- A concrete probe result used by the closed instances below. -/
def mediaA : MediaInfo := { width := 1920, height := 1080, duration := 10, r_frame_rate := 30 }

/-- A concrete request scaling to height 481. -/
def argsHeight481 : Args := { i := "in.mp4", out := "out.mp4", height := some "481" }

/-- C9: `ceil_even` returns the smallest even integer at least its argument
(in particular it is never odd and 481 rounds to 482), and the emitted scale
dimension is exactly `ceil_even` of the parsed requested size. -/
theorem even_dimension_rounding :
    (∀ n : ℤ, 2 ∣ ceil_even (n : ℚ) ∧ n ≤ ceil_even (n : ℚ) ∧
       ∀ m : ℤ, 2 ∣ m → n ≤ m → ceil_even (n : ℚ) ≤ m) ∧
    ceil_even ((481 : ℤ) : ℚ) = 482 ∧
    (∀ (a : Args) (v : MediaInfo) (n : ℤ), new_size_parsed a v = some n →
       size_str a v = some (if truthy a.width = true
                            then toString (ceil_even (n : ℚ)) ++ ":-2"
                            else "-2:" ++ toString (ceil_even (n : ℚ)))) := by
  refine ⟨?_, ?_, ?_⟩
  · intro n
    refine ⟨⟨((n : ℚ)/2).ceil, mul_comm _ _⟩, ?_, ?_⟩
    · simp only [ceil_even, ratCeil_eq_ceil]
      have hle := Int.le_ceil ((n : ℚ)/2)
      have h2 : (n : ℚ) ≤ (Int.ceil ((n : ℚ)/2) : ℚ) * 2 := by linarith
      exact_mod_cast h2
    · intro m hm hnm
      obtain ⟨k, hk⟩ := hm
      have hq : (n : ℚ)/2 ≤ (k : ℚ) := by
        rw [hk] at hnm
        have : (n : ℚ) ≤ 2 * (k : ℚ) := by exact_mod_cast hnm
        linarith
      have hck := Int.ceil_le.mpr hq
      simp only [ceil_even, ratCeil_eq_ceil]
      rw [hk]
      linarith
  · decide
  · intro a v n h
    simp [size_str, h]

/-- Witness for C9: a request for height 481 emits the even dimension 482. -/
theorem even_dimension_rounding_witness :
    size_str argsHeight481 mediaA =
      some (if truthy argsHeight481.width = true
            then toString (ceil_even ((481 : ℤ) : ℚ)) ++ ":-2"
            else "-2:" ++ toString (ceil_even ((481 : ℤ) : ℚ))) :=
  even_dimension_rounding.2.2 argsHeight481 mediaA 481 (by decide)

/-- A concrete request trimming from 2 for 5 seconds with a 1-second fade,
under accurate seek. -/
def argsTrimFade : Args :=
  { i := "in.mp4", out := "out.mp4", ss := "2", t := some "5", fade := some "1" }

/-- C7: under fast seek the fade-in anchor is 0 and the fade-out anchor is
duration minus fade-out length; under accurate seek the fade-in anchor is
the start offset and the fade-out anchor is start plus duration minus
fade-out length; concretely, start "2", duration "5", fade "1" under
accurate seek gives start 2, duration 5 and fade-out anchor 6. -/
theorem fade_anchor_placement (a : Args) (v : MediaInfo) (L : ℚ)
    (hL : fadeoutLen a = some L) :
    (FAST_SEEK a = true → fadein_start a = 0 ∧
        fadeout_start a v = some (pyRound4 (duration_secs a v - L))) ∧
    (FAST_SEEK a = false → fadein_start a = pyRound4 (start_secs a) ∧
        fadeout_start a v = some (pyRound4 (start_secs a + duration_secs a v - L))) ∧
    (start_secs argsTrimFade = 2 ∧ duration_secs argsTrimFade mediaA = 5 ∧
        fadeout_start argsTrimFade mediaA = some 6) := by
  refine ⟨?_, ?_, by decide, by decide, by decide⟩
  · intro h
    simp [fadein_start, fadeout_start, h, hL]
  · intro h
    simp [fadein_start, fadeout_start, h, hL]

/-- Witness for C7: the accurate-seek case at the concrete request. -/
theorem fade_anchor_placement_witness :
    fadein_start argsTrimFade = pyRound4 (start_secs argsTrimFade) ∧
    fadeout_start argsTrimFade mediaA =
      some (pyRound4 (start_secs argsTrimFade + duration_secs argsTrimFade mediaA - 1)) :=
  (fade_anchor_placement argsTrimFade mediaA 1 (by decide)).2.1 (by decide)

theorem convert_audio_true (a : Args) (v : MediaInfo) (b : Bool)
    (hb : convert_audio a v = some b) : b = true := by
  rw [convert_audio, filter_audio] at hb
  cases hato : audio_atoms a v with
  | none => rw [hato] at hb; simp at hb
  | some l =>
    rw [hato] at hb
    simp at hb
    exact hb

/-- A concrete plain request: no mute, no GIF, no audio options at all. -/
def argsPlain : Args := { i := "in.mp4", out := "out.mp4" }

/-- C4: when audio is not muted and the export is not a GIF, the assembled
command re-encodes audio to AAC and never emits the stream-copy options:
the joined audio-filter string is a `str` (empty when no audio filter is
requested) and is never equal to `None`, so `convert_audio` is always true. -/
theorem audio_always_reencoded (a : Args) (v : MediaInfo) (b : Bool)
    (ac au : List String)
    (hb : convert_audio a v = some b)
    (hac : opt_acodec a v = some ac) (hau : opt_audio a v = some au)
    (hm : a.mute = false) (hg : a.gif = false) :
    b = true ∧
    ac = ["-c:a", "aac", "-b:a", opt_acodec_bitrate a] ∧
    au = ac ∧ au ≠ ["-c:a", "copy"] ∧
    ∀ (pf : String) (p : Plan), buildPlan a v pf = some p →
      ∃ u w, p.pass1 = u ++ ["-c:a", "aac", "-b:a", opt_acodec_bitrate a] ++ w := by
  have hbt := convert_audio_true a v b hb
  subst hbt
  have hact : ac = ["-c:a", "aac", "-b:a", opt_acodec_bitrate a] := by
    rw [opt_acodec, hb] at hac
    simp at hac
    exact hac.symm
  have haut : au = ac := by
    rw [opt_audio, hac] at hau
    simp [hm, hg] at hau
    exact hau.symm
  refine ⟨rfl, hact, haut, ?_, ?_⟩
  · rw [haut, hact]
    simp
  · intro pf p hp
    simp only [buildPlan, hg, Bool.false_eq_true, if_false,
               Option.bind_eq_some, Option.some_inj] at hp
    obtain ⟨au0, hau0, af, haf, fx, hfx, yt, hyt, c1, hc1, hpp⟩ := hp
    have hau0v : au0 = au := by
      rw [hau0] at hau
      injection hau
    refine ⟨["ffmpeg"] ++ opt_global ++ opt_hardware a ++ opt_input1 a v ++
              ["-c:v", codec a] ++ codec_options a fx yt,
            af ++ (if c1.isEmpty then [] else ["-vf", String.intercalate "," c1]) ++
              opt_metadata a ++ opt_passthrough a ++ ["-y", a.out], ?_⟩
    rw [← hpp]
    rw [hau0v, haut, hact]
    simp [List.append_assoc]

/-- Witness for C4 at a concrete plain request. -/
theorem audio_always_reencoded_witness :
    (true = true) ∧
    (["-c:a", "aac", "-b:a", opt_acodec_bitrate argsPlain] :
        List String) = ["-c:a", "aac", "-b:a", opt_acodec_bitrate argsPlain] ∧
    (["-c:a", "aac", "-b:a", opt_acodec_bitrate argsPlain] :
        List String) = ["-c:a", "aac", "-b:a", opt_acodec_bitrate argsPlain] ∧
    (["-c:a", "aac", "-b:a", opt_acodec_bitrate argsPlain] :
        List String) ≠ ["-c:a", "copy"] ∧
    ∀ (pf : String) (p : Plan), buildPlan argsPlain mediaA pf = some p →
      ∃ u w, p.pass1 = u ++ ["-c:a", "aac", "-b:a", opt_acodec_bitrate argsPlain] ++ w :=
  audio_always_reencoded argsPlain mediaA true
    ["-c:a", "aac", "-b:a", opt_acodec_bitrate argsPlain]
    ["-c:a", "aac", "-b:a", opt_acodec_bitrate argsPlain]
    (by decide) (by decide) (by decide) rfl rfl

/-- A concrete GIF request that also asks for a volume adjustment and does
not pass the mute flag. -/
def argsGifVolume : Args :=
  { i := "in.mp4", out := "out.gif", gif := true, volume := some "0.5" }

/-- C10: for every GIF export request, both assembled encoder argument
vectors disable the audio stream with the mute-audio option, even when the
mute flag was not given and another audio mode was requested. -/
theorem gif_mutes_audio_in_both_passes (a : Args) (v : MediaInfo)
    (pf : String) (p : Plan)
    (hg : a.gif = true) (hp : buildPlan a v pf = some p) :
    "-an" ∈ p.pass1 ∧ ∃ p2, p.pass2 = some p2 ∧ "-an" ∈ p2 := by
  simp only [buildPlan, hg, if_true, Option.bind_eq_some, Option.some_inj] at hp
  obtain ⟨au, hau, af, haf, fx, hfx, yt, hyt, c1, hc1, c2, hc2, hpp⟩ := hp
  have hauv : au = ["-an"] := by
    rw [opt_audio] at hau
    obtain ⟨ac, hac, hau2⟩ := Option.map_eq_some'.mp hau
    rw [← hau2, hg]
    simp
  subst hauv
  subst hpp
  constructor
  · simp
  · refine ⟨_, rfl, ?_⟩
    simp

/-- Witness for C10 at a concrete GIF request with a volume adjustment. -/
theorem gif_mutes_audio_in_both_passes_witness :
    ∃ p, buildPlan argsGifVolume mediaA "pal.png" = some p ∧
      ("-an" ∈ p.pass1 ∧ ∃ p2, p.pass2 = some p2 ∧ "-an" ∈ p2) := by
  rcases hq : buildPlan argsGifVolume mediaA "pal.png" with _ | p
  · exact absurd hq (by decide)
  · exact ⟨p, rfl,
      gif_mutes_audio_in_both_passes argsGifVolume mediaA "pal.png" p rfl hq⟩

/-- A concrete plain GIF request. -/
def argsGifPlain : Args := { i := "in.mp4", out := "out.gif", gif := true }

/-- C2 counterexample: on a concrete GIF request the first-pass chain
carries the (always present) frame-loop fragment, while the second-pass
chain does not — a fragment is removed, not merely substituted. -/
theorem loop_fragment_removed_in_pass2 :
    vchain1 argsGifPlain mediaA =
      some ["eq=brightness=0:saturation=1:contrast=1",
            "loop=loop=0:size=32767:start=0",
            "palettegen=stats_mode=diff:reserve_transparent=0:max_colors=256"] ∧
    vchain2 argsGifPlain mediaA =
      some ["eq=brightness=0:saturation=1:contrast=1",
            "paletteuse=diff_mode=rectangle:bayer_scale=1:dither=floyd_steinberg"] := by
  exact ⟨by decide, by decide⟩

/-- C2 (amended): for a GIF export, pass 2 names the source and the pass-1
palette artifact as two inputs, and its video filter chain is pass 1's
fragment sequence with palette-application substituted for
palette-generation and the (always nonempty) frame-loop fragment removed. -/
theorem gif_pass2_inputs_and_chain (a : Args) (v : MediaInfo) (pf : String)
    (hg : a.gif = true) (pre lp vf : List String)
    (hpre : vcommon a v = some pre) (hlp : filter_loop a = some lp)
    (hvf : filter_vfade a v = some vf) :
    (∃ u w, opt_input2 a v pf = u ++ ["-i", a.i, "-i", pf] ++ w) ∧
    vchain1 a v = some (pre ++ lp ++ vf ++ filter_palettegen a) ∧
    vchain2 a v = some (pre ++ vf ++ filter_paletteuse a) ∧
    lp ≠ [] ∧ filter_palettegen a ≠ [] ∧ filter_paletteuse a ≠ [] := by
  refine ⟨⟨opts_seek a, opt_duration a v, ?_⟩, ?_, ?_, ?_, ?_, ?_⟩
  · simp [opt_input2, FAST_SEEK, hg]
  · simp [vchain1, hpre, hlp, hvf]
  · simp [vchain2, hpre, hvf]
  · rw [filter_loop] at hlp
    obtain ⟨n, hn, h2⟩ := Option.map_eq_some'.mp hlp
    rw [← h2]
    simp
  · simp [filter_palettegen, hg]
  · simp [filter_paletteuse]

/-- Witness for C2 (amended) at the concrete GIF request. -/
theorem gif_pass2_inputs_and_chain_witness :
    (∃ u w, opt_input2 argsGifPlain mediaA "pal.png" =
        u ++ ["-i", argsGifPlain.i, "-i", "pal.png"] ++ w) ∧
    vchain1 argsGifPlain mediaA =
      some (["eq=brightness=0:saturation=1:contrast=1"] ++
        ["loop=loop=0:size=32767:start=0"] ++ [] ++ filter_palettegen argsGifPlain) ∧
    vchain2 argsGifPlain mediaA =
      some (["eq=brightness=0:saturation=1:contrast=1"] ++ [] ++
        filter_paletteuse argsGifPlain) ∧
    (["loop=loop=0:size=32767:start=0"] : List String) ≠ [] ∧
    filter_palettegen argsGifPlain ≠ [] ∧ filter_paletteuse argsGifPlain ≠ [] :=
  gif_pass2_inputs_and_chain argsGifPlain mediaA "pal.png" rfl
    ["eq=brightness=0:saturation=1:contrast=1"]
    ["loop=loop=0:size=32767:start=0"] []
    (by decide) (by decide) (by decide)

/-- No atom of the list is a GPU transfer token. -/
def noHw (l : List String) : Prop :=
  l.count "hwdownload" = 0 ∧ l.count "hwupload" = 0

theorem noHw_nil : noHw [] := ⟨rfl, rfl⟩

theorem noHw_append {l₁ l₂ : List String} (h₁ : noHw l₁) (h₂ : noHw l₂) :
    noHw (l₁ ++ l₂) := by
  refine ⟨?_, ?_⟩ <;> simp [List.count_append, h₁.1, h₁.2, h₂.1, h₂.2]

theorem noHw_single {s : String} (h1 : s ≠ "hwdownload") (h2 : s ≠ "hwupload") :
    noHw [s] := ⟨count_singleton_ne h1, count_singleton_ne h2⟩

/-- Any string starting with a character other than `h` is not a transfer
token; every non-transfer fragment head of the chain is such a string. -/
theorem noHw_head_ne (p q : String) (hd : p.data.head? ≠ some 'h')
    (hp : p.data ≠ []) : noHw [p ++ q] := by
  refine noHw_single ?_ ?_ <;>
    · apply append_ne_of_head _ _ _ _ hp
      intro he
      exact hd he

theorem noHw_fps (a : Args) : noHw (filter_fps a) := by
  rw [filter_fps]
  split
  · exact noHw_head_ne _ _ (by decide) (by decide)
  · exact noHw_nil

theorem noHw_fixrgb (a : Args) (l : List String) (h : filter_fixrgb a = some l) :
    noHw l := by
  rw [filter_fixrgb] at h
  obtain ⟨n, hn, h2⟩ := Option.map_eq_some'.mp h
  rw [← h2]
  split
  · exact noHw_single (by decide) (by decide)
  · exact noHw_nil

theorem noHw_crop (a : Args) (l : List String) (h : filter_crop a = some l) :
    noHw l := by
  rw [filter_crop] at h
  split at h
  · split at h
    · injection h with h
      rw [← h]
      exact noHw_head_ne _ _ (by decide) (by decide)
    · exact absurd h (by simp)
  · injection h with h
    rw [← h]
    exact noHw_nil

theorem noHw_scale (a : Args) (v : MediaInfo) (l : List String)
    (h : filter_scale a v = some l) : noHw l := by
  rw [filter_scale] at h
  split at h
  · obtain ⟨s, hs, h2⟩ := Option.map_eq_some'.mp h
    rw [← h2]
    split
    · exact noHw_head_ne _ _ (by decide) (by decide)
    · exact noHw_head_ne _ _ (by decide) (by decide)
  · injection h with h
    rw [← h]
    exact noHw_nil

theorem noHw_mint (a : Args) (l : List String) (h : filter_minterpolate a = some l) :
    noHw l := by
  rw [filter_minterpolate] at h
  split at h
  · cases hm : ME_MODES a.slowmo_mode with
    | none => rw [hm] at h; exact absurd h (by simp)
    | some m =>
      cases hr : ME_RANGES a.slowmo_mode with
      | none => rw [hm, hr] at h; exact absurd h (by simp)
      | some r =>
        rw [hm, hr] at h
        simp only [Option.some_bind] at h
        injection h with h
        rw [← h]
        exact noHw_head_ne _ _ (by decide) (by decide)
  · injection h with h
    rw [← h]
    exact noHw_nil

theorem noHw_eq_filter (a : Args) : noHw (filter_eq a) := by
  rw [filter_eq]
  exact noHw_head_ne _ _ (by decide) (by decide)

theorem noHw_sharpen_filter (a : Args) : noHw (filter_sharpen a) := by
  rw [filter_sharpen]
  split
  · exact noHw_single (by decide) (by decide)
  · exact noHw_nil

theorem noHw_loop (a : Args) (l : List String) (h : filter_loop a = some l) :
    noHw l := by
  rw [filter_loop] at h
  obtain ⟨n, hn, h2⟩ := Option.map_eq_some'.mp h
  rw [← h2]
  exact noHw_head_ne _ _ (by decide) (by decide)

theorem noHw_pg (a : Args) : noHw (filter_palettegen a) := by
  rw [filter_palettegen]
  split
  · exact noHw_head_ne _ _ (by decide) (by decide)
  · exact noHw_nil

theorem noHw_vcommon (a : Args) (v : MediaInfo) (l : List String)
    (h : vcommon a v = some l) : noHw l := by
  rw [vcommon] at h
  simp only [Option.bind_eq_some, Option.some_inj] at h
  obtain ⟨fx, hfx, cr, hcr, sc, hsc, mi, hmi, hl⟩ := h
  rw [← hl]
  exact noHw_append (noHw_append (noHw_append (noHw_append (noHw_append
    (noHw_append (noHw_fps a) (noHw_fixrgb a fx hfx)) (noHw_crop a cr hcr))
    (noHw_scale a v sc hsc)) (noHw_mint a mi hmi)) (noHw_eq_filter a))
    (noHw_sharpen_filter a)

/-- The fade-in fragment when a fade-in is requested. -/
theorem vfadein_base_eq (a : Args) (h : truthy (effFadein a) = true) :
    filter_vfadein_base a =
      ["fade=t=in:st=" ++ (pyNum (fadein_start a) ++ ":d=" ++ (effFadein a).getD "")] := by
  rw [filter_vfadein_base, if_pos h]

/-- The fade-out fragment when a fade-out is requested. -/
theorem vfadeout_base_form (a : Args) (v : MediaInfo) (l : List String)
    (ht : truthy (effFadeout a) = true) (h : filter_vfadeout_base a v = some l) :
    ∃ fs, l = ["fade=t=out:st=" ++ (pyNum fs ++ ":d=" ++ (effFadeout a).getD "")] := by
  rw [filter_vfadeout_base] at h
  obtain ⟨fs, hfs, h2⟩ := Option.map_eq_some'.mp h
  exact ⟨fs, by rw [← h2, if_pos ht]⟩

/-- C6: with the GPU-assisted target active, a chain with both fades carries
exactly one download and one upload transfer token (a single shared pair),
and a chain with a single fade direction wraps that fade in its own pair. -/
theorem nvidia_single_transfer_pair (a : Args) (v : MediaInfo) (c : List String)
    (hn : a.nvidia = true) (hc : vchain1 a v = some c) :
    (truthy (effFadein a) = true → truthy (effFadeout a) = true →
        c.count "hwdownload" = 1 ∧ c.count "hwupload" = 1 ∧
        ∃ u w fi fo, c = u ++ ["hwdownload", "format=nv12", fi, fo, "hwupload"] ++ w) ∧
    (truthy (effFadein a) = true → truthy (effFadeout a) = false →
        c.count "hwdownload" = 1 ∧ c.count "hwupload" = 1 ∧
        ∃ u w s, c = u ++ ["hwdownload", "format=nv12", s, "hwupload"] ++ w) ∧
    (truthy (effFadein a) = false → truthy (effFadeout a) = true →
        c.count "hwdownload" = 1 ∧ c.count "hwupload" = 1 ∧
        ∃ u w s, c = u ++ ["hwdownload", "format=nv12", s, "hwupload"] ++ w) := by
  simp only [vchain1, Option.bind_eq_some, Option.some_inj] at hc
  obtain ⟨pre, hpre, lp, hlp, vf, hvf, hcc⟩ := hc
  have npre := noHw_vcommon a v pre hpre
  have nlp := noHw_loop a lp hlp
  have npg := noHw_pg a
  rw [filter_vfade] at hvf
  obtain ⟨fo, hfo, hvf2⟩ := Option.map_eq_some'.mp hvf
  have hne_in_d : ∀ x : String, "fade=t=in:st=" ++ x ≠ "hwdownload" :=
    fun x => append_ne_of_head _ _ _ (by decide) (by decide)
  have hne_in_u : ∀ x : String, "fade=t=in:st=" ++ x ≠ "hwupload" :=
    fun x => append_ne_of_head _ _ _ (by decide) (by decide)
  have hne_out_d : ∀ x : String, "fade=t=out:st=" ++ x ≠ "hwdownload" :=
    fun x => append_ne_of_head _ _ _ (by decide) (by decide)
  have hne_out_u : ∀ x : String, "fade=t=out:st=" ++ x ≠ "hwupload" :=
    fun x => append_ne_of_head _ _ _ (by decide) (by decide)
  refine ⟨?_, ?_, ?_⟩
  · intro hfi hfo2
    rw [vfadein_base_eq a hfi] at hvf2
    obtain ⟨fs, hfsv⟩ := vfadeout_base_form a v fo hfo2 hfo
    simp only [hn, hfi, hfo2, Bool.and_self, if_true, hfsv] at hvf2
    refine ⟨?_, ?_, ?_⟩
    · rw [← hcc, ← hvf2]
      simp [List.count_append, List.count_cons, npre.1, nlp.1, npg.1,
            hne_in_d, hne_out_d]
    · rw [← hcc, ← hvf2]
      simp [List.count_append, List.count_cons, npre.2, nlp.2, npg.2,
            hne_in_u, hne_out_u]
    · refine ⟨pre ++ lp, filter_palettegen a,
        "fade=t=in:st=" ++ (pyNum (fadein_start a) ++ ":d=" ++ (effFadein a).getD ""),
        "fade=t=out:st=" ++ (pyNum fs ++ ":d=" ++ (effFadeout a).getD ""), ?_⟩
      rw [← hcc, ← hvf2]
      simp [List.append_assoc]
  · intro hfi hfo2
    rw [vfadein_base_eq a hfi] at hvf2
    simp only [hn, hfi, hfo2, Bool.and_false, Bool.false_eq_true, if_false,
               if_true, List.append_nil, Bool.true_and] at hvf2
    refine ⟨?_, ?_, ?_⟩
    · rw [← hcc, ← hvf2]
      simp [List.count_append, List.count_cons, npre.1, nlp.1, npg.1,
            hne_in_d]
    · rw [← hcc, ← hvf2]
      simp [List.count_append, List.count_cons, npre.2, nlp.2, npg.2,
            hne_in_u]
    · refine ⟨pre ++ lp, filter_palettegen a,
        "fade=t=in:st=" ++ (pyNum (fadein_start a) ++ ":d=" ++ (effFadein a).getD ""), ?_⟩
      rw [← hcc, ← hvf2]
      simp [List.append_assoc]
  · intro hfi hfo2
    obtain ⟨fs, hfsv⟩ := vfadeout_base_form a v fo hfo2 hfo
    simp only [hn, hfi, hfo2, Bool.false_and, Bool.false_eq_true, if_false,
               if_true, List.nil_append, hfsv] at hvf2
    refine ⟨?_, ?_, ?_⟩
    · rw [← hcc, ← hvf2]
      simp [List.count_append, List.count_cons, npre.1, nlp.1, npg.1,
            hne_out_d]
    · rw [← hcc, ← hvf2]
      simp [List.count_append, List.count_cons, npre.2, nlp.2, npg.2,
            hne_out_u]
    · refine ⟨pre ++ lp, filter_palettegen a,
        "fade=t=out:st=" ++ (pyNum fs ++ ":d=" ++ (effFadeout a).getD ""), ?_⟩
      rw [← hcc, ← hvf2]
      simp [List.append_assoc]

/-- A concrete GPU-assisted request with both fades. -/
def argsNvFade : Args :=
  { i := "in.mp4", out := "out.mp4", nvidia := true, fade := some "1", t := some "5" }

/-- The chain assembled for `argsNvFade`. -/
def chainNvFade : List String :=
  ["eq=brightness=0:saturation=1:contrast=1", "loop=loop=0:size=32767:start=0",
   "hwdownload", "format=nv12", "fade=t=in:st=0:d=1", "fade=t=out:st=4:d=1", "hwupload"]

/-- Witness for C6: the both-fades case at the concrete GPU request. -/
theorem nvidia_single_transfer_pair_witness :
    chainNvFade.count "hwdownload" = 1 ∧ chainNvFade.count "hwupload" = 1 ∧
    ∃ u w fi fo, chainNvFade = u ++ ["hwdownload", "format=nv12", fi, fo, "hwupload"] ++ w :=
  (nvidia_single_transfer_pair argsNvFade mediaA chainNvFade rfl (by decide)).1
    (by decide) (by decide)

end

end FFAuto
